import Mathlib

/-!
# ibm-vpc-block-csi-driver-operator: pkg/operator/starter.go

A shallow embedding of `extractOperatorSpec`, `extractOperatorStatus` and
`RunOperator`, followed by the properties established about them.

Go values are embedded as follows.
* A Go `error` is `Option GoError` (`none` is the nil error).
* A Go pointer result is an `Option` (`none` is the nil pointer).
* Functions of vendored packages that `starter.go` calls are fields of a
  collaborator record passed explicitly.
-/

namespace operator

/-! ## Errors -/

/-- A Go error value: either an error that wraps nothing (as made by
errors.New), or an error made by fmt.Errorf with the verb `%w`, which carries
its own text and the error it wraps. -/
inductive GoError where
  | leaf (msg : String)
  | wrap (msg : String) (cause : GoError)
  deriving Repr, DecidableEq

/-- The Error method. -/
def GoError.Error : GoError → String
  | .leaf msg => msg
  | .wrap msg _ => msg

/-- The Unwrap method. -/
def GoError.Unwrap : GoError → Option GoError
  | .leaf _ => none
  | .wrap _ cause => some cause

/-- The call `fmt.Errorf("unable to convert to ClusterCSIDriver: %w", err)`:
the verb `%w` prints the text of `err` and makes `err` the wrapped error. -/
def errorfConvert (err : GoError) : GoError :=
  .wrap ("unable to convert to ClusterCSIDriver: " ++ err.Error) err

/-- The call `fmt.Errorf("unable to extract fields for %q: %w", fieldManager, err)`.
The verb `%q` prints its argument through strconv.Quote, which is the
parameter `quote`. -/
def errorfExtract (quote : String → String) (fieldManager : String) (err : GoError) : GoError :=
  .wrap ("unable to extract fields for " ++ quote fieldManager ++ ": " ++ err.Error) err

/-! ## The typed schema used by the extraction functions -/

/-- The type `unstructured.Unstructured`: a wrapper around the generic content
`Object` (a `map[string]interface{}` in Go, the type `M` here). -/
structure Unstructured (M : Type) where
  Object : M

/-- The type `applyopv1.ClusterCSIDriverSpecApplyConfiguration`: it embeds
`OperatorSpecApplyConfiguration` (type `OS`); its other fields, declared in the
vendored client, are `rest`. -/
structure ClusterCSIDriverSpecApplyConfiguration (OS SR : Type) where
  OperatorSpecApplyConfiguration : OS
  rest : SR

/-- The type `applyopv1.ClusterCSIDriverStatusApplyConfiguration`: it embeds
`OperatorStatusApplyConfiguration` (type `OT`); other fields are `rest`. -/
structure ClusterCSIDriverStatusApplyConfiguration (OT TR : Type) where
  OperatorStatusApplyConfiguration : OT
  rest : TR

/-- The type `applyopv1.ClusterCSIDriverApplyConfiguration`, restricted to the two
pointer fields that `starter.go` reads. -/
structure ClusterCSIDriverApplyConfiguration (OS SR OT TR : Type) where
  Spec : Option (ClusterCSIDriverSpecApplyConfiguration OS SR)
  Status : Option (ClusterCSIDriverStatusApplyConfiguration OT TR)

/-- The vendored functions called by `extractOperatorSpec` and
`extractOperatorStatus`.
* `FromUnstructured` is `runtime.DefaultUnstructuredConverter.FromUnstructured`
  filling a fresh `opv1.ClusterCSIDriver` (type `C`).
* `ExtractClusterCSIDriver` and `ExtractClusterCSIDriverStatus` are the generated
  extractors of `applyopv1`; they return a non-nil configuration with a nil
  error, or a nil configuration with an error.
* `Quote` is `strconv.Quote`, reached through the verb `%q`. -/
structure Converter (M C OS SR OT TR : Type) where
  FromUnstructured : M → Except GoError C
  ExtractClusterCSIDriver :
    C → String → Except GoError (ClusterCSIDriverApplyConfiguration OS SR OT TR)
  ExtractClusterCSIDriverStatus :
    C → String → Except GoError (ClusterCSIDriverApplyConfiguration OS SR OT TR)
  Quote : String → String

/-- A Go result pair `(*T, error)`. -/
structure Result (T : Type) where
  val : Option T
  err : Option GoError

section Extract

variable {M C OS SR OT TR : Type}

/-- The function `extractOperatorSpec` of starter.go. The parameter `obj` is the
object that the Go pointer refers to: the operator client, its only caller,
passes the instance it has read. -/
def extractOperatorSpec (lib : Converter M C OS SR OT TR)
    (obj : Unstructured M) (fieldManager : String) : Result OS :=
  match lib.FromUnstructured obj.Object with
  | .error err => ⟨none, some (errorfConvert err)⟩
  | .ok castObj =>
    match lib.ExtractClusterCSIDriver castObj fieldManager with
    | .error err => ⟨none, some (errorfExtract lib.Quote fieldManager err)⟩
    | .ok ret =>
      match ret.Spec with
      | none => ⟨none, none⟩
      | some spec => ⟨some spec.OperatorSpecApplyConfiguration, none⟩

/-- The function `extractOperatorStatus` of starter.go, on the same kind of
input as `extractOperatorSpec`. -/
def extractOperatorStatus (lib : Converter M C OS SR OT TR)
    (obj : Unstructured M) (fieldManager : String) : Result OT :=
  match lib.FromUnstructured obj.Object with
  | .error err => ⟨none, some (errorfConvert err)⟩
  | .ok castObj =>
    match lib.ExtractClusterCSIDriverStatus castObj fieldManager with
    | .error err => ⟨none, some (errorfExtract lib.Quote fieldManager err)⟩
    | .ok ret =>
      match ret.Status with
      | none => ⟨none, none⟩
      | some status => ⟨some status.OperatorStatusApplyConfiguration, none⟩

end Extract

/-! ## RunOperator: contexts, clients and controllers -/

/-- A channel that is only ever closed, reduced to the instant at which it is
closed (`none`: never). -/
structure Chan where
  closedAt : Option Nat
  deriving Repr, DecidableEq

/-- Whether a receive on the channel can complete at instant `t`. -/
def Chan.closed (ch : Chan) (t : Nat) : Bool :=
  match ch.closedAt with
  | some c => decide (c ≤ t)
  | none => false

/-- A `context.Context`, reduced to the instant at which it is cancelled
(`none`: never). -/
structure Context where
  cancelledAt : Option Nat
  deriving Repr, DecidableEq

/-- The method `ctx.Done()`: a channel closed when the context is cancelled. -/
def Context.Done (ctx : Context) : Chan := ⟨ctx.cancelledAt⟩

/-- The call `context.TODO()`: an empty context, never cancelled. -/
def Context.TODO : Context := ⟨none⟩

/-- The type `metav1.GetOptions`, reduced to its one field relevant to a read. -/
structure GetOptions where
  ResourceVersion : String := ""
  deriving Repr, DecidableEq

/-- The apiextensions clientset, reduced to the one method that starter.go calls:
`ApiextensionsV1().CustomResourceDefinitions().Get(ctx, name, opts)`. The type `σ`
is the state of the API server at the time of the call, `CRD` the type of the
object returned. -/
structure ApiExtClient (σ CRD : Type) where
  CustomResourceDefinitionsGet : σ → Context → String → GetOptions → Option CRD × Option GoError

/-- The constants of package `util` that starter.go refers to; they are declared
outside this file. -/
structure Util where
  OperatorName : String
  OperatorNamespace : String
  ConfigMapNamespace : String
  InstanceName : String
  OperandName : String
  MetricsCertSecretName : String
  TrustedCAConfigMap : String
  Resync : Nat
  deriving Repr, DecidableEq

/-- The parameter `controllerConfig`, reduced to its field `KubeConfig` (of the
abstract type `K`); the event recorder carries no behaviour used here. -/
structure ControllerContext (K : Type) where
  KubeConfig : K

/-- The vendored client constructors that RunOperator calls.
* A constructor named OrDie returns no error and panics instead; its field
  tells whether it panics on the given configuration.
* A constructor returning `(client, error)` is given by its error; only the
  apiextensions client has a method that starter.go itself calls, so only that
  client is part of the result.
* The operator client constructor is given the configuration, the resource of
  `gvr`, the kind of `gvk` and the instance name; the clock and the two
  extraction functions passed to it are left out.
* Constructors that neither fail nor panic (the informer factories) are not
  listed. -/
structure Vendored (K σ CRD : Type) where
  AddUserAgent : K → String → K
  kubeclientNewForConfigOrDiePanics : K → Bool
  apiextclientNewForConfig : K → ApiExtClient σ CRD × Option GoError
  configclientNewForConfigOrDiePanics : K → Bool
  opclientNewForConfigOrDiePanics : K → Bool
  gocNewClusterScopedOperatorClientWithConfigName : K → String → String → String → Option GoError
  dynamicNewForConfig : K → Option GoError

/-- The hooks passed to WithCSIDriverControllerService. -/
inductive DeploymentHook where
  | WithObservedProxyDeploymentHook
  | WithSecretHashAnnotationHook (ns secretName : String)
  | WithCABundleDeploymentHook (ns configMapName : String)
  deriving Repr, DecidableEq

/-- The hooks passed to WithCSIDriverNodeService. -/
inductive DaemonSetHook where
  | WithObservedProxyDaemonSetHook
  | WithCABundleDaemonSetHook (ns configMapName : String)
  deriving Repr, DecidableEq

/-- The hooks passed to WithStorageClassController. -/
inductive StorageClassHook where
  | getEncryptionKeyHook
  deriving Repr, DecidableEq

/-- One controller held by a CSIControllerSet, with the arguments given at
composition (clients, informers and the asset reader are left out). A Go
`func() bool` that reads the cluster is a function of the API server state. -/
inductive Controller (σ : Type) where
  | LogLevelController
  | ManagementStateController (operandName : String) (supportsOperandRemoval : Bool)
  | StaticResourcesController (name : String) (files : List String)
  | ConditionalStaticResourcesController (name : String) (files : List String)
      (shouldCreateFn shouldDeleteFn : σ → Bool)
  | CSIConfigObserverController (name : String)
  | CSIDriverControllerService (name : String) (assetName : String)
      (hooks : List DeploymentHook)
  | CSIDriverNodeService (name : String) (assetName : String) (hooks : List DaemonSetHook)
  | StorageClassController (name : String) (files : List String)
      (hooks : List StorageClassHook)

/-- The name given to a controller at composition, if one is given. -/
def Controller.name? {σ : Type} : Controller σ → Option String
  | .LogLevelController => none
  | .ManagementStateController _ _ => none
  | .StaticResourcesController name _ => some name
  | .ConditionalStaticResourcesController name _ _ _ => some name
  | .CSIConfigObserverController name => some name
  | .CSIDriverControllerService name _ _ => some name
  | .CSIDriverNodeService name _ _ => some name
  | .StorageClassController name _ _ => some name

/-- The builder `csicontrollerset.CSIControllerSet`: the controllers added so
far, in the order of the calls. -/
structure CSIControllerSet (σ : Type) where
  controllers : List (Controller σ)

/-- The call `csicontrollerset.NewCSIControllerSet(operatorClient, recorder)`. -/
def NewCSIControllerSet {σ : Type} : CSIControllerSet σ := ⟨[]⟩

/-- Every builder method `With...` adds one controller and returns the set. -/
def CSIControllerSet.add {σ : Type} (s : CSIControllerSet σ) (c : Controller σ) :
    CSIControllerSet σ := ⟨s.controllers ++ [c]⟩

/-- A conditional static resources controller of a set: name, manifests and the
two predicates. -/
structure ConditionalEntry (σ : Type) where
  name : String
  files : List String
  shouldCreateFn : σ → Bool
  shouldDeleteFn : σ → Bool

/-- The conditional static resources controllers of a list, in order. -/
def conditionalEntries {σ : Type} : List (Controller σ) → List (ConditionalEntry σ)
  | [] => []
  | .ConditionalStaticResourcesController name files c d :: rest =>
      ⟨name, files, c, d⟩ :: conditionalEntries rest
  | _ :: rest => conditionalEntries rest

/-- The controller made by `staticresourcecontroller.NewStaticResourceController`
followed by `WithIgnoreNotFoundOnCreate`. -/
structure StaticResourceController where
  name : String
  files : List String
  ignoreNotFoundOnCreate : Bool
  deriving Repr, DecidableEq

/-- The controller made by `secret.NewSecretSyncController`. -/
structure SecretSyncController where
  resync : Nat
  deriving Repr, DecidableEq

/-- The four informer factories of RunOperator, named after its variables. -/
inductive InformerFactory where
  | kubeInformersForNamespaces
  | dynamicInformers
  | configInformers
  | operatorInformers
  deriving Repr, DecidableEq

/-- The fallible or panicking constructor calls of RunOperator. -/
inductive Constructor where
  | kubeClient
  | apiExtClient
  | configClient
  | operatorClientSet
  | operatorClient
  | dynamicClient
  deriving Repr, DecidableEq

/-- What a `go` statement of RunOperator starts. -/
inductive Goroutine (σ : Type) where
  | RunStaticResourceController (c : StaticResourceController) (ctx : Context) (workers : Nat)
  | RunSecretSyncController (c : SecretSyncController) (ctx : Context) (workers : Nat)
  | RunCSIControllerSet (s : CSIControllerSet σ) (ctx : Context) (workers : Nat)
  | Start (f : InformerFactory) (stopCh : Chan)

/-- The observable steps of RunOperator. -/
inductive Event (σ : Type) where
  | constructed (c : Constructor) (err : Option GoError)
  | klogInfo (msg : String)
  | go (g : Goroutine σ)

/-- Whether an event starts a goroutine. -/
def Event.isGo {σ : Type} : Event σ → Bool
  | .go _ => true
  | _ => false

/-- How a call of RunOperator proceeds: it panics, it returns, or it blocks on a
receive from a channel and then returns; each with the steps taken before. -/
inductive Exec (σ : Type) where
  | panicked (trace : List (Event σ)) (c : Constructor)
  | returned (trace : List (Event σ)) (err : Option GoError)
  | recvThenReturn (trace : List (Event σ)) (ch : Chan) (err : Option GoError)

/-- The steps taken. -/
def Exec.trace {σ : Type} : Exec σ → List (Event σ)
  | .panicked trace _ => trace
  | .returned trace _ => trace
  | .recvThenReturn trace _ _ => trace

/-- The same execution after the steps `pre`. -/
def Exec.after {σ : Type} (pre : List (Event σ)) : Exec σ → Exec σ
  | .panicked trace c => .panicked (pre ++ trace) c
  | .returned trace err => .returned (pre ++ trace) err
  | .recvThenReturn trace ch err => .recvThenReturn (pre ++ trace) ch err

/-- What the caller of RunOperator observes at an instant. -/
inductive Status where
  | panicked
  | blocked
  | returned (err : Option GoError)
  deriving Repr, DecidableEq

/-- The status of an execution at instant `t`: a receive completes once the
channel is closed. -/
def Exec.statusAt {σ : Type} : Exec σ → Nat → Status
  | .panicked _ _, _ => .panicked
  | .returned _ err, _ => .returned err
  | .recvThenReturn _ ch err, t => if ch.closed t then .returned err else .blocked

/-! ## RunOperator: the builder methods used by the composition -/

section Builder

variable {σ : Type}

/-- The builder method WithLogLevelController. -/
def CSIControllerSet.WithLogLevelController (s : CSIControllerSet σ) : CSIControllerSet σ :=
  s.add .LogLevelController

/-- The builder method WithManagementStateController. -/
def CSIControllerSet.WithManagementStateController (s : CSIControllerSet σ)
    (operandName : String) (supportsOperandRemoval : Bool) : CSIControllerSet σ :=
  s.add (.ManagementStateController operandName supportsOperandRemoval)

/-- The builder method WithStaticResourcesController. -/
def CSIControllerSet.WithStaticResourcesController (s : CSIControllerSet σ)
    (name : String) (files : List String) : CSIControllerSet σ :=
  s.add (.StaticResourcesController name files)

/-- The builder method WithConditionalStaticResourcesController. -/
def CSIControllerSet.WithConditionalStaticResourcesController (s : CSIControllerSet σ)
    (name : String) (files : List String) (shouldCreateFn shouldDeleteFn : σ → Bool) :
    CSIControllerSet σ :=
  s.add (.ConditionalStaticResourcesController name files shouldCreateFn shouldDeleteFn)

/-- The builder method WithCSIConfigObserverController. -/
def CSIControllerSet.WithCSIConfigObserverController (s : CSIControllerSet σ)
    (name : String) : CSIControllerSet σ :=
  s.add (.CSIConfigObserverController name)

/-- The builder method WithCSIDriverControllerService. -/
def CSIControllerSet.WithCSIDriverControllerService (s : CSIControllerSet σ)
    (name : String) (assetName : String) (hooks : List DeploymentHook) : CSIControllerSet σ :=
  s.add (.CSIDriverControllerService name assetName hooks)

/-- The builder method WithCSIDriverNodeService. -/
def CSIControllerSet.WithCSIDriverNodeService (s : CSIControllerSet σ)
    (name : String) (assetName : String) (hooks : List DaemonSetHook) : CSIControllerSet σ :=
  s.add (.CSIDriverNodeService name assetName hooks)

/-- The builder method WithStorageClassController. -/
def CSIControllerSet.WithStorageClassController (s : CSIControllerSet σ)
    (name : String) (files : List String) (hooks : List StorageClassHook) :
    CSIControllerSet σ :=
  s.add (.StorageClassController name files hooks)

/-- The names given at composition to the controllers of a set, in order. -/
def CSIControllerSet.names (s : CSIControllerSet σ) : List String :=
  s.controllers.filterMap Controller.name?

end Builder

/-! ## RunOperator -/

section Run

variable {K σ CRD : Type}

/-- The local variables of RunOperator that later statements read: the
apiextensions client, captured by the install predicate, and `err`. -/
structure Locals (σ CRD : Type) where
  apiExtClient : ApiExtClient σ CRD
  err : Option GoError

/-- The outcome of the first part of RunOperator: it has left the function, or
it has reached the composition with the given local variables. -/
inductive Setup (σ CRD : Type) where
  | exit (e : Exec σ)
  | reached (trace : List (Event σ)) (l : Locals σ CRD)

/-- RunOperator, from its first statement to the check that follows
`dynamic.NewForConfig` (lines 46 to 86 of starter.go). The variable `err` is
assigned by the three constructors that return an error, and by nothing else. -/
def RunOperator.clients (lib : Vendored K σ CRD) (util : Util)
    (controllerConfig : ControllerContext K) : Setup σ CRD :=
  let trace : List (Event σ) := []
  -- Create core clientset and informers
  if lib.kubeclientNewForConfigOrDiePanics
      (lib.AddUserAgent controllerConfig.KubeConfig util.OperatorName) then
    .exit (.panicked trace .kubeClient)
  else
  let trace := trace ++ [.constructed .kubeClient none]
  -- Create apiextension client
  let r := lib.apiextclientNewForConfig
    (lib.AddUserAgent controllerConfig.KubeConfig util.OperatorName)
  let apiExtClient := r.1
  let err := r.2
  let trace := trace ++ [.constructed .apiExtClient err]
  if err ≠ none then .exit (.returned trace err) else
  -- Create config clientset and informer
  if lib.configclientNewForConfigOrDiePanics
      (lib.AddUserAgent controllerConfig.KubeConfig util.OperatorName) then
    .exit (.panicked trace .configClient)
  else
  let trace := trace ++ [.constructed .configClient none]
  -- operator.openshift.io client
  if lib.opclientNewForConfigOrDiePanics
      (lib.AddUserAgent controllerConfig.KubeConfig util.OperatorName) then
    .exit (.panicked trace .operatorClientSet)
  else
  let trace := trace ++ [.constructed .operatorClientSet none]
  -- Create GenericOperatorclient
  let gvr := "clustercsidrivers"
  let gvk := "ClusterCSIDriver"
  let err := lib.gocNewClusterScopedOperatorClientWithConfigName
    controllerConfig.KubeConfig gvr gvk util.InstanceName
  let trace := trace ++ [.constructed .operatorClient err]
  if err ≠ none then .exit (.returned trace err) else
  let err := lib.dynamicNewForConfig controllerConfig.KubeConfig
  let trace := trace ++ [.constructed .dynamicClient err]
  if err ≠ none then .exit (.returned trace err) else
  .reached trace ⟨apiExtClient, err⟩

/-- The install predicate of the conditional static resources controller
(lines 135 to 139): a closure over `apiExtClient` with a variable `err` of its
own. -/
def RunOperator.shouldCreateFn (apiExtClient : ApiExtClient σ CRD) : σ → Bool :=
  fun st =>
    let name := "volumesnapshotclasses.snapshot.storage.k8s.io"
    let r := apiExtClient.CustomResourceDefinitionsGet st Context.TODO name {}
    let err := r.2
    decide (err = none)

/-- The remove predicate of the conditional static resources controller
(lines 141 to 143). -/
def RunOperator.shouldDeleteFn : σ → Bool :=
  fun _ => false

/-- The composition of the controller set (lines 88 to 191). -/
def RunOperator.csiControllerSet (util : Util) (l : Locals σ CRD) : CSIControllerSet σ :=
  (((((((NewCSIControllerSet.WithLogLevelController).WithManagementStateController
    util.OperandName
    false
  ).WithStaticResourcesController
    "IBMBlockDriverStaticResourcesController"
    [
      "rbac/privileged_role.yaml",
      "rbac/node_privileged_binding.yaml",
      "rbac/prometheus_role.yaml",
      "rbac/prometheus_rolebinding.yaml",
      "rbac/kube_rbac_proxy_role.yaml",
      "rbac/kube_rbac_proxy_binding.yaml",
      "rbac/initcontainer_role.yaml",
      "rbac/initcontainer_rolebinding.yaml",
      "rbac/lease_leader_election_role.yaml",
      "rbac/lease_leader_election_rolebinding.yaml",
      "rbac/main_attacher_binding.yaml",
      "rbac/main_provisioner_binding.yaml",
      "rbac/volumesnapshot_reader_provisioner_binding.yaml",
      "rbac/configmap_and_secret_reader_provisioner_binding.yaml",
      "rbac/main_resizer_binding.yaml",
      "rbac/main_snapshotter_binding.yaml",
      "configmap.yaml",
      "csidriver.yaml",
      "service.yaml",
      "cabundle_cm.yaml",
      "controller_sa.yaml",
      "node_sa.yaml",
      "network-policy-allow-ingress-to-csi-driver-metrics.yaml"
    ]
  ).WithConditionalStaticResourcesController
    "IBMBlockDriverConditionalStaticResourcesController"
    [
      "volumesnapshotclass.yaml"
    ]
    -- Only install when CRD exists.
    (RunOperator.shouldCreateFn l.apiExtClient)
    -- Don't ever remove.
    RunOperator.shouldDeleteFn
  ).WithCSIConfigObserverController
    "IBMBlockDriverCSIConfigObserverController"
  ).WithCSIDriverControllerService
    "IBMBlockDriverControllerServiceController"
    "controller.yaml"
    [
      .WithObservedProxyDeploymentHook,
      .WithSecretHashAnnotationHook util.OperatorNamespace util.MetricsCertSecretName,
      .WithCABundleDeploymentHook util.OperatorNamespace util.TrustedCAConfigMap
    ]
  ).WithCSIDriverNodeService
    "IBMBlockDriverNodeServiceController"
    "node.yaml"
    [
      .WithObservedProxyDaemonSetHook,
      .WithCABundleDaemonSetHook util.OperatorNamespace util.TrustedCAConfigMap
    ]
  ).WithStorageClassController
    "IBMBlockStorageClassController"
    [
      "storageclass/vpc-block-10iopsTier-StorageClass.yaml",
      "storageclass/vpc-block-5iopsTier-StorageClass.yaml",
      "storageclass/vpc-block-custom-StorageClass.yaml"
    ]
    [.getEncryptionKeyHook]

/-- The ServiceMonitor controller made at lines 204 to 211. -/
def RunOperator.serviceMonitorController : StaticResourceController :=
  { name := "IBMBlockDriverServiceMonitorController"
    files := ["servicemonitor.yaml"]
    ignoreNotFoundOnCreate := true }

/-- RunOperator, from the check that follows the composition to the end
(lines 193 to 229). A `go` statement starts its call and does not wait for it;
the receive from `ctx.Done()` waits until that channel is closed. -/
def RunOperator.start (util : Util) (ctx : Context) (l : Locals σ CRD)
    (csiControllerSet : CSIControllerSet σ) : Exec σ :=
  if l.err ≠ none then .returned [] l.err else
  let secretSyncController : SecretSyncController := ⟨util.Resync⟩
  let serviceMonitorController := RunOperator.serviceMonitorController
  .recvThenReturn
    [ .klogInfo "Starting ServiceMonitor controller",
      .go (.RunStaticResourceController serviceMonitorController ctx 1),
      .klogInfo "Starting the informers",
      .go (.Start .kubeInformersForNamespaces ctx.Done),
      .go (.Start .dynamicInformers ctx.Done),
      .go (.Start .configInformers ctx.Done),
      .go (.Start .operatorInformers ctx.Done),
      .klogInfo "Starting controllerset",
      .go (.RunSecretSyncController secretSyncController ctx 1),
      .go (.RunCSIControllerSet csiControllerSet ctx 1) ]
    ctx.Done
    none

/-- The function `RunOperator` of starter.go. -/
def RunOperator (lib : Vendored K σ CRD) (util : Util) (ctx : Context)
    (controllerConfig : ControllerContext K) : Exec σ :=
  match RunOperator.clients lib util controllerConfig with
  | .exit e => e
  | .reached trace l =>
    (RunOperator.start util ctx l (RunOperator.csiControllerSet util l)).after trace

/-- All the controller names given in RunOperator: those of the controller set,
then that of the ServiceMonitor controller. -/
def RunOperator.controllerNames (util : Util) (l : Locals σ CRD) : List String :=
  (RunOperator.csiControllerSet util l).names ++ [RunOperator.serviceMonitorController.name]

end Run

/-! ## Collaborators described by the specification only -/

/-- The error of a registration that repeats a controller name. -/
inductive RegisterError where
  | DuplicateNameError (name : String)
  deriving Repr, DecidableEq

/-- Modelled from the spec: the registration check of the controller set, which
is vendored code outside starter.go. Registering appends the controller name
to the ordered collection, and fails with DuplicateNameError when a registered
controller already has that name. -/
def register (registered : List String) (name : String) :
    Except RegisterError (List String) :=
  if name ∈ registered then .error (.DuplicateNameError name)
  else .ok (registered ++ [name])

/-- Registration of a list of names, one after the other, from the left. -/
def registerAll : List String → List String → Except RegisterError (List String)
  | registered, [] => .ok registered
  | registered, name :: rest =>
    match register registered name with
    | .error e => .error e
    | .ok registered1 => registerAll registered1 rest

/-- What one tick of a conditional resource controller does to its resource. -/
inductive TickAction where
  | apply
  | delete
  | noop
  deriving Repr, DecidableEq

/-- The error of a tick whose predicates are both true. -/
inductive TickError where
  | PredicateConflictError
  deriving Repr, DecidableEq

/-- Modelled from the spec: one tick of the conditional resource controller for
one entry, which is vendored code outside starter.go. The install predicate is
evaluated first, then the remove predicate; both true is an error with no
mutation; install true with the resource absent applies the manifest; remove
true with the resource present deletes it; otherwise nothing is done. -/
def conditionalTick {σ : Type} (e : ConditionalEntry σ) (st : σ) (present : Bool) :
    Except TickError TickAction :=
  let shouldInstall := e.shouldCreateFn st
  let shouldRemove := e.shouldDeleteFn st
  if shouldInstall && shouldRemove then .error .PredicateConflictError
  else if shouldInstall && !present then .ok .apply
  else if shouldRemove && present then .ok .delete
  else .ok .noop

/-- The two parts of the custom resource instance. -/
inductive Part where
  | spec
  | status
  deriving Repr, DecidableEq

/-- A field of the custom resource instance: the part it belongs to, whether it
is one of the operator fields embedded in that part, and its name. -/
structure Field where
  part : Part
  embedded : Bool
  name : String
  deriving Repr, DecidableEq

/-- Fields with their values. -/
abbrev FieldValues := List (Field × String)

/-- The fields that a list of field values sets. -/
def fieldsOf (vs : FieldValues) : List Field := vs.map Prod.fst

/-- Modelled from the spec: the typed custom resource instance together with
its field ownership claims (section 3): the values of its fields, and for each
field manager that has applied, the fields it owns. The typed schema is declared
in vendored code outside starter.go. -/
structure Instance where
  values : FieldValues
  claims : List (String × List Field)
  deriving Repr, DecidableEq

/-- The fields owned by a field manager, or `none` if it owns no fields yet. -/
def Instance.owned (i : Instance) (fieldManager : String) : Option (List Field) :=
  i.claims.lookup fieldManager

/-- Modelled from the spec: the server-side partial merge of section 4.2 and
section 9, applied by a field manager, which is outside starter.go. It copies
only the fields present in the patch onto the instance, leaves every other field
untouched, and creates or renews the ownership claim of the manager. -/
def Instance.apply (i : Instance) (patch : FieldValues) (fieldManager : String) : Instance :=
  { values := patch ++ i.values.filter (fun p => decide (p.1 ∉ fieldsOf patch))
    claims := (fieldManager, fieldsOf patch) ::
      i.claims.filter (fun c => decide (c.1 ≠ fieldManager)) }

/-- The operator fields of one part among some field values. -/
def embeddedOf (part : Part) (vs : FieldValues) : FieldValues :=
  vs.filter (fun p => decide (p.1.part = part) && p.1.embedded)

/-- The other fields of one part among some field values. -/
def restOf (part : Part) (vs : FieldValues) : FieldValues :=
  vs.filter (fun p => decide (p.1.part = part) && !p.1.embedded)

/-- The apply configuration holding some field values: a part is present when
one of its fields is. -/
def toApplyConfiguration (vs : FieldValues) :
    ClusterCSIDriverApplyConfiguration FieldValues FieldValues FieldValues FieldValues :=
  { Spec := if vs.any (fun p => decide (p.1.part = .spec)) then
      some ⟨embeddedOf .spec vs, restOf .spec vs⟩ else none
    Status := if vs.any (fun p => decide (p.1.part = .status)) then
      some ⟨embeddedOf .status vs, restOf .status vs⟩ else none }

/-- Modelled from the spec: the extraction of section 4.2, which is vendored code
outside starter.go: the subset of the typed value attributable to the prior
applies of the field manager, empty if that manager owns no fields yet. -/
def extractOwned (i : Instance) (fieldManager : String) :
    Except GoError
      (ClusterCSIDriverApplyConfiguration FieldValues FieldValues FieldValues FieldValues) :=
  match i.owned fieldManager with
  | none => .ok ⟨none, none⟩
  | some fs => .ok (toApplyConfiguration (i.values.filter (fun p => decide (p.1 ∈ fs))))

/-- The collaborators of the extraction functions with the specified field
ownership semantics; the conversion from the generic object and the quoting
remain parameters. -/
def ownershipConverter {M : Type} (fromUnstructured : M → Except GoError Instance)
    (quote : String → String) :
    Converter M Instance FieldValues FieldValues FieldValues FieldValues :=
  { FromUnstructured := fromUnstructured
    ExtractClusterCSIDriver := extractOwned
    ExtractClusterCSIDriverStatus := extractOwned
    Quote := quote }

/-- The value that a result holds for a patch last written by a manager: the
operator fields of the given part, or nil when the patch has no field there. -/
def lastWritten (part : Part) (patch : FieldValues) : Option FieldValues :=
  if patch.any (fun p => decide (p.1.part = part)) then some (embeddedOf part patch) else none

/-! ## Derived observations and concrete inputs -/

/-- The goroutine started by an event, if it starts one. -/
def Event.goroutine? {σ : Type} : Event σ → Option (Goroutine σ)
  | .go g => some g
  | _ => none

/-- The goroutines started by an execution, in order. -/
def Exec.goroutines {σ : Type} (x : Exec σ) : List (Goroutine σ) :=
  x.trace.filterMap Event.goroutine?

/-- Whether every client construction of RunOperator succeeds: no OrDie
constructor panics and no constructor returns an error. -/
def constructionsSucceed {K σ CRD : Type} (lib : Vendored K σ CRD) (util : Util)
    (controllerConfig : ControllerContext K) : Bool :=
  let withAgent := lib.AddUserAgent controllerConfig.KubeConfig util.OperatorName
  !lib.kubeclientNewForConfigOrDiePanics withAgent
    && decide ((lib.apiextclientNewForConfig withAgent).2 = none)
    && !lib.configclientNewForConfigOrDiePanics withAgent
    && !lib.opclientNewForConfigOrDiePanics withAgent
    && decide (lib.gocNewClusterScopedOperatorClientWithConfigName
        controllerConfig.KubeConfig "clustercsidrivers" "ClusterCSIDriver" util.InstanceName = none)
    && decide (lib.dynamicNewForConfig controllerConfig.KubeConfig = none)

/-- A converter on small types: the generic object 0 does not convert, the
empty manager name cannot be extracted, and the typed object 1 has neither a
Spec nor a Status for any manager. -/
def exampleConverter : Converter Nat Nat String Nat String Nat :=
  { FromUnstructured := fun n =>
      if n = 0 then .error (.leaf "not a ClusterCSIDriver") else .ok n
    ExtractClusterCSIDriver := fun c fieldManager =>
      if fieldManager = "" then .error (.leaf "no field manager")
      else .ok ⟨if c = 1 then none else some ⟨fieldManager, c⟩, none⟩
    ExtractClusterCSIDriverStatus := fun c fieldManager =>
      if fieldManager = "" then .error (.leaf "no field manager")
      else .ok ⟨none, if c = 1 then none else some ⟨fieldManager, c⟩⟩
    Quote := fun s => "<" ++ s ++ ">" }

/-- An apiextensions client over a state that tells whether the
VolumeSnapshotClass CRD exists. -/
def exampleApiExtClient : ApiExtClient Bool Unit :=
  ⟨fun st _ name _ =>
    if st && decide (name = "volumesnapshotclasses.snapshot.storage.k8s.io") then (some (), none)
    else (none, some (.leaf "not found"))⟩

/-- Client constructors over numbered configurations: on configuration 0 the
core client panics, on 1, 2 and 3 the apiextensions, operator and dynamic
client constructors fail, and on any other configuration all succeed. -/
def exampleVendored : Vendored Nat Bool Unit :=
  { AddUserAgent := fun k _ => k
    kubeclientNewForConfigOrDiePanics := fun k => decide (k = 0)
    apiextclientNewForConfig := fun k =>
      (exampleApiExtClient, if k = 1 then some (.leaf "apiextensions") else none)
    configclientNewForConfigOrDiePanics := fun _ => false
    opclientNewForConfigOrDiePanics := fun _ => false
    gocNewClusterScopedOperatorClientWithConfigName := fun k _ _ _ =>
      if k = 2 then some (.leaf "operator client") else none
    dynamicNewForConfig := fun k => if k = 3 then some (.leaf "dynamic") else none }

/-- Some values for the constants of package util. -/
def exampleUtil : Util :=
  { OperatorName := "ibm-vpc-block-csi-driver-operator"
    OperatorNamespace := "openshift-cluster-csi-drivers"
    ConfigMapNamespace := "openshift-config-managed"
    InstanceName := "vpc.block.csi.ibm.io"
    OperandName := "ibm-vpc-block-csi-driver"
    MetricsCertSecretName := "metrics-serving-cert"
    TrustedCAConfigMap := "trusted-ca-bundle"
    Resync := 1200 }

/-- A patch written by a first manager: two operator fields of the spec. -/
def examplePatchA : FieldValues :=
  [(⟨.spec, true, "logLevel"⟩, "Debug"), (⟨.spec, true, "managementState"⟩, "Managed")]

/-- A patch written by a second manager: a spec field outside the operator
part and an operator field of the status. -/
def examplePatchB : FieldValues :=
  [(⟨.spec, false, "storageClassState"⟩, "Unmanaged"), (⟨.status, true, "readyReplicas"⟩, "1")]

/-- An instance on which a third manager owns one field. -/
def exampleInstance : Instance :=
  { values := [(⟨.status, true, "version"⟩, "4.16")]
    claims := [("installer", [⟨.status, true, "version"⟩])] }

/-! ## Properties of the extraction functions -/

section ExtractProps

variable {M C OS SR OT TR : Type}

theorem extractOperatorSpec_convert_error (lib : Converter M C OS SR OT TR)
    (obj : Unstructured M) (fieldManager : String) (cause : GoError)
    (h : lib.FromUnstructured obj.Object = .error cause) :
    extractOperatorSpec lib obj fieldManager = ⟨none, some (errorfConvert cause)⟩ := by
  simp [extractOperatorSpec, h]

theorem extractOperatorSpec_extract_error (lib : Converter M C OS SR OT TR)
    (obj : Unstructured M) (fieldManager : String) (castObj : C) (cause : GoError)
    (h : lib.FromUnstructured obj.Object = .ok castObj)
    (h2 : lib.ExtractClusterCSIDriver castObj fieldManager = .error cause) :
    extractOperatorSpec lib obj fieldManager =
      ⟨none, some (errorfExtract lib.Quote fieldManager cause)⟩ := by
  simp [extractOperatorSpec, h, h2]

theorem extractOperatorSpec_success (lib : Converter M C OS SR OT TR)
    (obj : Unstructured M) (fieldManager : String) (castObj : C)
    (ret : ClusterCSIDriverApplyConfiguration OS SR OT TR)
    (h : lib.FromUnstructured obj.Object = .ok castObj)
    (h2 : lib.ExtractClusterCSIDriver castObj fieldManager = .ok ret) :
    extractOperatorSpec lib obj fieldManager =
      ⟨ret.Spec.map (fun spec => spec.OperatorSpecApplyConfiguration), none⟩ := by
  simp only [extractOperatorSpec, h, h2]
  cases ret.Spec <;> rfl

theorem extractOperatorStatus_convert_error (lib : Converter M C OS SR OT TR)
    (obj : Unstructured M) (fieldManager : String) (cause : GoError)
    (h : lib.FromUnstructured obj.Object = .error cause) :
    extractOperatorStatus lib obj fieldManager = ⟨none, some (errorfConvert cause)⟩ := by
  simp [extractOperatorStatus, h]

theorem extractOperatorStatus_extract_error (lib : Converter M C OS SR OT TR)
    (obj : Unstructured M) (fieldManager : String) (castObj : C) (cause : GoError)
    (h : lib.FromUnstructured obj.Object = .ok castObj)
    (h2 : lib.ExtractClusterCSIDriverStatus castObj fieldManager = .error cause) :
    extractOperatorStatus lib obj fieldManager =
      ⟨none, some (errorfExtract lib.Quote fieldManager cause)⟩ := by
  simp [extractOperatorStatus, h, h2]

theorem extractOperatorStatus_success (lib : Converter M C OS SR OT TR)
    (obj : Unstructured M) (fieldManager : String) (castObj : C)
    (ret : ClusterCSIDriverApplyConfiguration OS SR OT TR)
    (h : lib.FromUnstructured obj.Object = .ok castObj)
    (h2 : lib.ExtractClusterCSIDriverStatus castObj fieldManager = .ok ret) :
    extractOperatorStatus lib obj fieldManager =
      ⟨ret.Status.map (fun status => status.OperatorStatusApplyConfiguration), none⟩ := by
  simp only [extractOperatorStatus, h, h2]
  cases ret.Status <;> rfl

/-- The texts of the conversion error and of the extraction error differ,
whatever the causes and the manager name: they differ in their eleventh
character. -/
theorem errorfConvert_ne_errorfExtract (quote : String → String) (fieldManager : String)
    (c1 c2 : GoError) : errorfConvert c1 ≠ errorfExtract quote fieldManager c2 := by
  intro h
  have hmsg := congrArg GoError.Error h
  simp only [errorfConvert, errorfExtract, GoError.Error] at hmsg
  have h2 := congrArg (fun s => s.data.take 11) hmsg
  simp only [String.append_assoc, String.data_append] at h2
  rw [List.take_append_of_le_length (by decide),
    List.take_append_of_le_length (by decide)] at h2
  revert h2
  decide

/-- C1. When the conversion to ClusterCSIDriver and the field extraction both
succeed, extractOperatorSpec returns a nil error; the returned spec is nil
exactly when the extracted configuration has no Spec; and when it has one, the
returned value is the OperatorSpec part embedded in that Spec. -/
theorem extractOperatorSpec_of_success (lib : Converter M C OS SR OT TR)
    (obj : Unstructured M) (fieldManager : String) (castObj : C)
    (ret : ClusterCSIDriverApplyConfiguration OS SR OT TR)
    (hconv : lib.FromUnstructured obj.Object = .ok castObj)
    (hext : lib.ExtractClusterCSIDriver castObj fieldManager = .ok ret) :
    (extractOperatorSpec lib obj fieldManager).err = none ∧
    ((extractOperatorSpec lib obj fieldManager).val = none ↔ ret.Spec = none) ∧
    ∀ spec, ret.Spec = some spec →
      (extractOperatorSpec lib obj fieldManager).val =
        some spec.OperatorSpecApplyConfiguration := by
  rw [extractOperatorSpec_success lib obj fieldManager castObj ret hconv hext]
  refine ⟨rfl, ?_, ?_⟩
  · cases ret.Spec <;> simp
  · intro spec hs
    simp [hs]

/-- At a concrete input: the object 2 converts, the manager "operator" can be
extracted with a Spec, and the result is the operator part of that Spec with a
nil error. -/
theorem extractOperatorSpec_of_success_witness :
    exampleConverter.FromUnstructured (Unstructured.mk 2).Object = .ok 2 ∧
    exampleConverter.ExtractClusterCSIDriver 2 "operator" =
      .ok ⟨some ⟨"operator", 2⟩, none⟩ ∧
    (extractOperatorSpec exampleConverter ⟨2⟩ "operator").err = none ∧
    (extractOperatorSpec exampleConverter ⟨2⟩ "operator").val = some "operator" :=
  ⟨rfl, rfl,
    (extractOperatorSpec_of_success exampleConverter ⟨2⟩ "operator" 2
      ⟨some ⟨"operator", 2⟩, none⟩ rfl rfl).1,
    (extractOperatorSpec_of_success exampleConverter ⟨2⟩ "operator" 2
      ⟨some ⟨"operator", 2⟩, none⟩ rfl rfl).2.2 ⟨"operator", 2⟩ rfl⟩

/-- C2. When the conversion to ClusterCSIDriver and the status field extraction
both succeed, extractOperatorStatus returns a nil error; the returned status is
nil exactly when the extracted configuration has no Status; and when it has
one, the returned value is the OperatorStatus part embedded in that Status. -/
theorem extractOperatorStatus_of_success (lib : Converter M C OS SR OT TR)
    (obj : Unstructured M) (fieldManager : String) (castObj : C)
    (ret : ClusterCSIDriverApplyConfiguration OS SR OT TR)
    (hconv : lib.FromUnstructured obj.Object = .ok castObj)
    (hext : lib.ExtractClusterCSIDriverStatus castObj fieldManager = .ok ret) :
    (extractOperatorStatus lib obj fieldManager).err = none ∧
    ((extractOperatorStatus lib obj fieldManager).val = none ↔ ret.Status = none) ∧
    ∀ status, ret.Status = some status →
      (extractOperatorStatus lib obj fieldManager).val =
        some status.OperatorStatusApplyConfiguration := by
  rw [extractOperatorStatus_success lib obj fieldManager castObj ret hconv hext]
  refine ⟨rfl, ?_, ?_⟩
  · cases ret.Status <;> simp
  · intro status hs
    simp [hs]

/-- At a concrete input: the object 2 converts, the manager "operator" can be
extracted with a Status, and the result is the operator part of that Status
with a nil error. -/
theorem extractOperatorStatus_of_success_witness :
    exampleConverter.FromUnstructured (Unstructured.mk 2).Object = .ok 2 ∧
    exampleConverter.ExtractClusterCSIDriverStatus 2 "operator" =
      .ok ⟨none, some ⟨"operator", 2⟩⟩ ∧
    (extractOperatorStatus exampleConverter ⟨2⟩ "operator").err = none ∧
    (extractOperatorStatus exampleConverter ⟨2⟩ "operator").val = some "operator" :=
  ⟨rfl, rfl,
    (extractOperatorStatus_of_success exampleConverter ⟨2⟩ "operator" 2
      ⟨none, some ⟨"operator", 2⟩⟩ rfl rfl).1,
    (extractOperatorStatus_of_success exampleConverter ⟨2⟩ "operator" 2
      ⟨none, some ⟨"operator", 2⟩⟩ rfl rfl).2.2 ⟨"operator", 2⟩ rfl⟩

/-- C3. Both extraction functions signal failures. Each returns a non-nil error
exactly when the conversion fails or, after a successful conversion, the
ownership extraction fails, and then the returned value is nil. A conversion
failure yields the conversion error whatever the extractors are; an extraction
failure yields the extraction error, which names the quoted manager. Each error
wraps its cause, and the two errors are never equal. -/
theorem extract_errors_signalled (lib : Converter M C OS SR OT TR)
    (obj : Unstructured M) (fieldManager : String) :
    (((extractOperatorSpec lib obj fieldManager).err ≠ none ↔
        ((∃ cause, lib.FromUnstructured obj.Object = .error cause) ∨
          ∃ castObj cause, lib.FromUnstructured obj.Object = .ok castObj ∧
            lib.ExtractClusterCSIDriver castObj fieldManager = .error cause)) ∧
      ((extractOperatorSpec lib obj fieldManager).err ≠ none →
        (extractOperatorSpec lib obj fieldManager).val = none) ∧
      (∀ cause, lib.FromUnstructured obj.Object = .error cause →
        extractOperatorSpec lib obj fieldManager = ⟨none, some (errorfConvert cause)⟩) ∧
      (∀ castObj cause, lib.FromUnstructured obj.Object = .ok castObj →
        lib.ExtractClusterCSIDriver castObj fieldManager = .error cause →
        extractOperatorSpec lib obj fieldManager =
          ⟨none, some (errorfExtract lib.Quote fieldManager cause)⟩)) ∧
    (((extractOperatorStatus lib obj fieldManager).err ≠ none ↔
        ((∃ cause, lib.FromUnstructured obj.Object = .error cause) ∨
          ∃ castObj cause, lib.FromUnstructured obj.Object = .ok castObj ∧
            lib.ExtractClusterCSIDriverStatus castObj fieldManager = .error cause)) ∧
      ((extractOperatorStatus lib obj fieldManager).err ≠ none →
        (extractOperatorStatus lib obj fieldManager).val = none) ∧
      (∀ cause, lib.FromUnstructured obj.Object = .error cause →
        extractOperatorStatus lib obj fieldManager = ⟨none, some (errorfConvert cause)⟩) ∧
      (∀ castObj cause, lib.FromUnstructured obj.Object = .ok castObj →
        lib.ExtractClusterCSIDriverStatus castObj fieldManager = .error cause →
        extractOperatorStatus lib obj fieldManager =
          ⟨none, some (errorfExtract lib.Quote fieldManager cause)⟩)) ∧
    (∀ cause : GoError,
      (errorfConvert cause).Error = "unable to convert to ClusterCSIDriver: " ++ cause.Error ∧
      (errorfConvert cause).Unwrap = some cause ∧
      (errorfExtract lib.Quote fieldManager cause).Error =
        "unable to extract fields for " ++ lib.Quote fieldManager ++ ": " ++ cause.Error ∧
      (errorfExtract lib.Quote fieldManager cause).Unwrap = some cause) ∧
    (∀ c1 c2 : GoError, errorfConvert c1 ≠ errorfExtract lib.Quote fieldManager c2) := by
  refine ⟨⟨?_, ?_, ?_, ?_⟩, ⟨?_, ?_, ?_, ?_⟩, ?_, ?_⟩
  · cases h : lib.FromUnstructured obj.Object with
    | error cause => simp [extractOperatorSpec, h]
    | ok castObj =>
      cases h2 : lib.ExtractClusterCSIDriver castObj fieldManager with
      | error cause => simp [extractOperatorSpec, h, h2]
      | ok ret =>
        rw [extractOperatorSpec_success lib obj fieldManager castObj ret h h2]
        simp [h2]
  · cases h : lib.FromUnstructured obj.Object with
    | error cause => simp [extractOperatorSpec, h]
    | ok castObj =>
      cases h2 : lib.ExtractClusterCSIDriver castObj fieldManager with
      | error cause => simp [extractOperatorSpec, h, h2]
      | ok ret =>
        rw [extractOperatorSpec_success lib obj fieldManager castObj ret h h2]
        simp
  · exact fun cause h => extractOperatorSpec_convert_error lib obj fieldManager cause h
  · exact fun castObj cause h h2 =>
      extractOperatorSpec_extract_error lib obj fieldManager castObj cause h h2
  · cases h : lib.FromUnstructured obj.Object with
    | error cause => simp [extractOperatorStatus, h]
    | ok castObj =>
      cases h2 : lib.ExtractClusterCSIDriverStatus castObj fieldManager with
      | error cause => simp [extractOperatorStatus, h, h2]
      | ok ret =>
        rw [extractOperatorStatus_success lib obj fieldManager castObj ret h h2]
        simp [h2]
  · cases h : lib.FromUnstructured obj.Object with
    | error cause => simp [extractOperatorStatus, h]
    | ok castObj =>
      cases h2 : lib.ExtractClusterCSIDriverStatus castObj fieldManager with
      | error cause => simp [extractOperatorStatus, h, h2]
      | ok ret =>
        rw [extractOperatorStatus_success lib obj fieldManager castObj ret h h2]
        simp
  · exact fun cause h => extractOperatorStatus_convert_error lib obj fieldManager cause h
  · exact fun castObj cause h h2 =>
      extractOperatorStatus_extract_error lib obj fieldManager castObj cause h h2
  · intro cause
    exact ⟨rfl, rfl, rfl, rfl⟩
  · exact fun c1 c2 => errorfConvert_ne_errorfExtract lib.Quote fieldManager c1 c2

end ExtractProps

/-! ## Properties of the composition in RunOperator -/

section ComposeProps

variable {K σ CRD : Type}

/-- The composed set holds exactly one conditional static resources controller:
the one for volumesnapshotclass.yaml, with the two predicates of RunOperator. -/
theorem conditionalEntries_csiControllerSet (util : Util) (l : Locals σ CRD) :
    conditionalEntries (RunOperator.csiControllerSet util l).controllers =
      [⟨"IBMBlockDriverConditionalStaticResourcesController", ["volumesnapshotclass.yaml"],
        RunOperator.shouldCreateFn l.apiExtClient, RunOperator.shouldDeleteFn⟩] := rfl

/-- C5. The conditional static resources controller composed in RunOperator is
the one for volumesnapshotclass.yaml; its remove predicate is false in every
state, so its two predicates are never both true, and a tick of the controller
neither fails with a predicate conflict nor deletes the resource. -/
theorem conditional_remove_never (util : Util) (l : Locals σ CRD) :
    ∃ e : ConditionalEntry σ,
      conditionalEntries (RunOperator.csiControllerSet util l).controllers = [e] ∧
      e.files = ["volumesnapshotclass.yaml"] ∧
      ∀ st : σ,
        e.shouldDeleteFn st = false ∧
        ¬ (e.shouldCreateFn st = true ∧ e.shouldDeleteFn st = true) ∧
        ∀ present : Bool,
          conditionalTick e st present ≠ .error .PredicateConflictError ∧
          conditionalTick e st present ≠ .ok .delete := by
  refine ⟨_, conditionalEntries_csiControllerSet util l, rfl, ?_⟩
  intro st
  refine ⟨rfl, ?_, ?_⟩
  · simp [RunOperator.shouldDeleteFn]
  · intro present
    cases hc : RunOperator.shouldCreateFn l.apiExtClient st <;> cases present <;>
      simp [conditionalTick, RunOperator.shouldDeleteFn, hc]

/-- C6. The install predicate of the conditional static resources controller
composed in RunOperator is true exactly when the lookup of the
CustomResourceDefinition volumesnapshotclasses.snapshot.storage.k8s.io returns
a nil error, whatever object the lookup returns, and is false for every lookup
error. -/
theorem install_iff_crd_lookup_succeeds (util : Util) (l : Locals σ CRD) :
    ∃ e : ConditionalEntry σ,
      conditionalEntries (RunOperator.csiControllerSet util l).controllers = [e] ∧
      ∀ st : σ,
        (e.shouldCreateFn st = true ↔
          (l.apiExtClient.CustomResourceDefinitionsGet st Context.TODO
            "volumesnapshotclasses.snapshot.storage.k8s.io" {}).2 = none) ∧
        ∀ err : GoError,
          (l.apiExtClient.CustomResourceDefinitionsGet st Context.TODO
            "volumesnapshotclasses.snapshot.storage.k8s.io" {}).2 = some err →
          e.shouldCreateFn st = false := by
  refine ⟨_, conditionalEntries_csiControllerSet util l, ?_⟩
  intro st
  constructor
  · simp [RunOperator.shouldCreateFn]
  · intro err h
    simp [RunOperator.shouldCreateFn, h]

/-- C7. The controller names given in RunOperator are the seven listed names;
they are pairwise distinct, and registering them one after the other never
fails with a duplicate name error. -/
theorem controller_names_distinct (util : Util) (l : Locals σ CRD) :
    RunOperator.controllerNames util l =
      [ "IBMBlockDriverStaticResourcesController",
        "IBMBlockDriverConditionalStaticResourcesController",
        "IBMBlockDriverCSIConfigObserverController",
        "IBMBlockDriverControllerServiceController",
        "IBMBlockDriverNodeServiceController",
        "IBMBlockStorageClassController",
        "IBMBlockDriverServiceMonitorController" ] ∧
    (RunOperator.controllerNames util l).Nodup ∧
    registerAll [] (RunOperator.controllerNames util l) =
      .ok (RunOperator.controllerNames util l) := by
  have h : RunOperator.controllerNames util l =
      [ "IBMBlockDriverStaticResourcesController",
        "IBMBlockDriverConditionalStaticResourcesController",
        "IBMBlockDriverCSIConfigObserverController",
        "IBMBlockDriverControllerServiceController",
        "IBMBlockDriverNodeServiceController",
        "IBMBlockStorageClassController",
        "IBMBlockDriverServiceMonitorController" ] := rfl
  rw [h]
  exact ⟨rfl, by decide, by simp [registerAll, register]⟩

end ComposeProps

/-! ## Properties of the control flow of RunOperator -/

section RunProps

variable {K σ CRD : Type}

/-- The first part of RunOperator reaches the composition only with a nil
`err`, with the apiextensions client that its constructor returned, and after
the six constructions. -/
theorem clients_reached (lib : Vendored K σ CRD) (util : Util)
    (controllerConfig : ControllerContext K) (trace : List (Event σ)) (l : Locals σ CRD)
    (h : RunOperator.clients lib util controllerConfig = .reached trace l) :
    l.err = none ∧
    l.apiExtClient = (lib.apiextclientNewForConfig
      (lib.AddUserAgent controllerConfig.KubeConfig util.OperatorName)).1 ∧
    trace = [ .constructed .kubeClient none, .constructed .apiExtClient none,
      .constructed .configClient none, .constructed .operatorClientSet none,
      .constructed .operatorClient none, .constructed .dynamicClient none ] := by
  simp only [RunOperator.clients] at h
  split_ifs at h with h1 h2 h3 h4 h5 h6
  simp only [ne_eq, not_not] at h2 h5 h6
  simp only [Setup.reached.injEq] at h
  obtain ⟨ht, hl⟩ := h
  subst hl
  subst ht
  simp [h2, h5, h6]

/-- When every construction succeeds, the first part of RunOperator reaches the
composition. -/
theorem clients_of_constructionsSucceed (lib : Vendored K σ CRD) (util : Util)
    (controllerConfig : ControllerContext K)
    (h : constructionsSucceed lib util controllerConfig = true) :
    RunOperator.clients lib util controllerConfig =
      .reached
        [ .constructed .kubeClient none, .constructed .apiExtClient none,
          .constructed .configClient none, .constructed .operatorClientSet none,
          .constructed .operatorClient none, .constructed .dynamicClient none ]
        ⟨(lib.apiextclientNewForConfig
          (lib.AddUserAgent controllerConfig.KubeConfig util.OperatorName)).1, none⟩ := by
  simp only [constructionsSucceed, Bool.and_eq_true, Bool.not_eq_true', decide_eq_true_eq] at h
  obtain ⟨⟨⟨⟨⟨h1, h2⟩, h3⟩, h4⟩, h5⟩, h6⟩ := h
  simp [RunOperator.clients, h1, h2, h3, h4, h5, h6]

/-- What RunOperator does once the composition is reached with a nil `err`. -/
theorem start_of_err_nil (util : Util) (ctx : Context) (l : Locals σ CRD)
    (set : CSIControllerSet σ) (h : l.err = none) :
    RunOperator.start util ctx l set =
      .recvThenReturn
        [ .klogInfo "Starting ServiceMonitor controller",
          .go (.RunStaticResourceController RunOperator.serviceMonitorController ctx 1),
          .klogInfo "Starting the informers",
          .go (.Start .kubeInformersForNamespaces ctx.Done),
          .go (.Start .dynamicInformers ctx.Done),
          .go (.Start .configInformers ctx.Done),
          .go (.Start .operatorInformers ctx.Done),
          .klogInfo "Starting controllerset",
          .go (.RunSecretSyncController ⟨util.Resync⟩ ctx 1),
          .go (.RunCSIControllerSet set ctx 1) ]
        ctx.Done none := by
  simp [RunOperator.start, h]

/-- A receive from the Done channel of a context completes exactly from the
instant of its cancellation on. -/
theorem Done_closed_iff (ctx : Context) (t : Nat) :
    ctx.Done.closed t = true ↔ ∃ c, ctx.cancelledAt = some c ∧ c ≤ t := by
  cases h : ctx.cancelledAt <;> simp [Context.Done, Chan.closed, h]

/-- C8. RunOperator returns a non-nil error exactly when one of its three
fallible constructors is reached and returns that error: the apiextensions
client constructor, or after it the generic operator client constructor, or
after both the dynamic client constructor (a constructor is reached when every
earlier constructor has returned without error and without panic). The trace
holds a construction of each of these clients exactly when its constructor is
reached, with the result the constructor returned; a non-nil error is returned
exactly when the trace holds a failed construction with that error; and then
RunOperator has returned at once without starting any goroutine. -/
theorem RunOperator_error_iff_construction_fails (lib : Vendored K σ CRD) (util : Util)
    (ctx : Context) (controllerConfig : ControllerContext K) (e : GoError) :
    ((∃ t, (RunOperator lib util ctx controllerConfig).statusAt t = .returned (some e)) ↔
      ((lib.kubeclientNewForConfigOrDiePanics
          (lib.AddUserAgent controllerConfig.KubeConfig util.OperatorName) = false ∧
        (lib.apiextclientNewForConfig
          (lib.AddUserAgent controllerConfig.KubeConfig util.OperatorName)).2 = some e) ∨
       (lib.kubeclientNewForConfigOrDiePanics
          (lib.AddUserAgent controllerConfig.KubeConfig util.OperatorName) = false ∧
        (lib.apiextclientNewForConfig
          (lib.AddUserAgent controllerConfig.KubeConfig util.OperatorName)).2 = none ∧
        lib.configclientNewForConfigOrDiePanics
          (lib.AddUserAgent controllerConfig.KubeConfig util.OperatorName) = false ∧
        lib.opclientNewForConfigOrDiePanics
          (lib.AddUserAgent controllerConfig.KubeConfig util.OperatorName) = false ∧
        lib.gocNewClusterScopedOperatorClientWithConfigName controllerConfig.KubeConfig
          "clustercsidrivers" "ClusterCSIDriver" util.InstanceName = some e) ∨
       (lib.kubeclientNewForConfigOrDiePanics
          (lib.AddUserAgent controllerConfig.KubeConfig util.OperatorName) = false ∧
        (lib.apiextclientNewForConfig
          (lib.AddUserAgent controllerConfig.KubeConfig util.OperatorName)).2 = none ∧
        lib.configclientNewForConfigOrDiePanics
          (lib.AddUserAgent controllerConfig.KubeConfig util.OperatorName) = false ∧
        lib.opclientNewForConfigOrDiePanics
          (lib.AddUserAgent controllerConfig.KubeConfig util.OperatorName) = false ∧
        lib.gocNewClusterScopedOperatorClientWithConfigName controllerConfig.KubeConfig
          "clustercsidrivers" "ClusterCSIDriver" util.InstanceName = none ∧
        lib.dynamicNewForConfig controllerConfig.KubeConfig = some e))) ∧
    ((∃ t, (RunOperator lib util ctx controllerConfig).statusAt t = .returned (some e)) ↔
      (.constructed .apiExtClient (some e) ∈ (RunOperator lib util ctx controllerConfig).trace ∨
       .constructed .operatorClient (some e) ∈ (RunOperator lib util ctx controllerConfig).trace ∨
       .constructed .dynamicClient (some e) ∈
          (RunOperator lib util ctx controllerConfig).trace)) ∧
    (∀ err, .constructed .apiExtClient err ∈ (RunOperator lib util ctx controllerConfig).trace ↔
      (lib.kubeclientNewForConfigOrDiePanics
          (lib.AddUserAgent controllerConfig.KubeConfig util.OperatorName) = false ∧
        err = (lib.apiextclientNewForConfig
          (lib.AddUserAgent controllerConfig.KubeConfig util.OperatorName)).2)) ∧
    (∀ err, .constructed .operatorClient err ∈ (RunOperator lib util ctx controllerConfig).trace ↔
      (lib.kubeclientNewForConfigOrDiePanics
          (lib.AddUserAgent controllerConfig.KubeConfig util.OperatorName) = false ∧
        (lib.apiextclientNewForConfig
          (lib.AddUserAgent controllerConfig.KubeConfig util.OperatorName)).2 = none ∧
        lib.configclientNewForConfigOrDiePanics
          (lib.AddUserAgent controllerConfig.KubeConfig util.OperatorName) = false ∧
        lib.opclientNewForConfigOrDiePanics
          (lib.AddUserAgent controllerConfig.KubeConfig util.OperatorName) = false ∧
        err = lib.gocNewClusterScopedOperatorClientWithConfigName controllerConfig.KubeConfig
          "clustercsidrivers" "ClusterCSIDriver" util.InstanceName)) ∧
    (∀ err, .constructed .dynamicClient err ∈ (RunOperator lib util ctx controllerConfig).trace ↔
      (lib.kubeclientNewForConfigOrDiePanics
          (lib.AddUserAgent controllerConfig.KubeConfig util.OperatorName) = false ∧
        (lib.apiextclientNewForConfig
          (lib.AddUserAgent controllerConfig.KubeConfig util.OperatorName)).2 = none ∧
        lib.configclientNewForConfigOrDiePanics
          (lib.AddUserAgent controllerConfig.KubeConfig util.OperatorName) = false ∧
        lib.opclientNewForConfigOrDiePanics
          (lib.AddUserAgent controllerConfig.KubeConfig util.OperatorName) = false ∧
        lib.gocNewClusterScopedOperatorClientWithConfigName controllerConfig.KubeConfig
          "clustercsidrivers" "ClusterCSIDriver" util.InstanceName = none ∧
        err = lib.dynamicNewForConfig controllerConfig.KubeConfig)) ∧
    ((∃ t, (RunOperator lib util ctx controllerConfig).statusAt t = .returned (some e)) →
      (RunOperator lib util ctx controllerConfig).goroutines = [] ∧
      ∀ t, (RunOperator lib util ctx controllerConfig).statusAt t = .returned (some e)) := by
  by_cases h1 : lib.kubeclientNewForConfigOrDiePanics
      (lib.AddUserAgent controllerConfig.KubeConfig util.OperatorName) = true
  · simp [RunOperator, RunOperator.clients, h1, Exec.statusAt, Exec.trace]
  by_cases h2 : (lib.apiextclientNewForConfig
      (lib.AddUserAgent controllerConfig.KubeConfig util.OperatorName)).2 = none
  swap
  · obtain ⟨a, ha⟩ := Option.ne_none_iff_exists'.mp h2
    simp [RunOperator, RunOperator.clients, h1, ha, Exec.statusAt, Exec.trace,
      Exec.goroutines, Event.goroutine?]
    exact eq_comm
  by_cases h3 : lib.configclientNewForConfigOrDiePanics
      (lib.AddUserAgent controllerConfig.KubeConfig util.OperatorName) = true
  · simp [RunOperator, RunOperator.clients, h1, h2, h3, Exec.statusAt, Exec.trace]
  by_cases h4 : lib.opclientNewForConfigOrDiePanics
      (lib.AddUserAgent controllerConfig.KubeConfig util.OperatorName) = true
  · simp [RunOperator, RunOperator.clients, h1, h2, h3, h4, Exec.statusAt, Exec.trace]
  by_cases h5 : lib.gocNewClusterScopedOperatorClientWithConfigName controllerConfig.KubeConfig
      "clustercsidrivers" "ClusterCSIDriver" util.InstanceName = none
  swap
  · obtain ⟨a, ha⟩ := Option.ne_none_iff_exists'.mp h5
    simp [RunOperator, RunOperator.clients, h1, h2, h3, h4, ha, Exec.statusAt, Exec.trace,
      Exec.goroutines, Event.goroutine?]
    exact eq_comm
  by_cases h6 : lib.dynamicNewForConfig controllerConfig.KubeConfig = none
  swap
  · obtain ⟨a, ha⟩ := Option.ne_none_iff_exists'.mp h6
    simp [RunOperator, RunOperator.clients, h1, h2, h3, h4, h5, ha, Exec.statusAt, Exec.trace,
      Exec.goroutines, Event.goroutine?]
    exact eq_comm
  · simp [RunOperator, RunOperator.clients, RunOperator.start, Exec.after, h1, h2, h3, h4, h5,
      h6, Exec.statusAt, Exec.trace]
    have key : ∀ x : Nat, ¬ (if ctx.Done.closed x = true then Status.returned none
        else Status.blocked) = Status.returned (some e) := by
      intro x
      split <;> simp
    exact ⟨key, fun x hx => absurd hx (key x)⟩

/-- At a concrete input: on configuration 2 the operator client constructor is
reached and fails; RunOperator returns that error and has started no
goroutine. -/
theorem RunOperator_error_iff_construction_fails_witness :
    (∃ t, (RunOperator exampleVendored exampleUtil ⟨none⟩ ⟨2⟩).statusAt t =
      .returned (some (.leaf "operator client"))) ∧
    (RunOperator exampleVendored exampleUtil ⟨none⟩ ⟨2⟩).goroutines = [] :=
  ⟨(RunOperator_error_iff_construction_fails exampleVendored exampleUtil ⟨none⟩ ⟨2⟩
      (.leaf "operator client")).1.mpr (Or.inr (Or.inl ⟨rfl, rfl, rfl, rfl, rfl⟩)),
   ((RunOperator_error_iff_construction_fails exampleVendored exampleUtil ⟨none⟩ ⟨2⟩
      (.leaf "operator client")).2.2.2.2.2
      ((RunOperator_error_iff_construction_fails exampleVendored exampleUtil ⟨none⟩ ⟨2⟩
        (.leaf "operator client")).1.mpr (Or.inr (Or.inl ⟨rfl, rfl, rfl, rfl, rfl⟩)))).1⟩

/-- C9. When every client construction succeeds, RunOperator starts the
ServiceMonitor controller, the four informer factories, the secret sync
controller and the controller set, each once, with the context it was given and
one worker for each controller, all before it waits; it is blocked at every
instant before the cancellation of the context, and has returned nil from that
instant on. -/
theorem RunOperator_returns_on_cancellation_only (lib : Vendored K σ CRD) (util : Util)
    (ctx : Context) (controllerConfig : ControllerContext K)
    (h : constructionsSucceed lib util controllerConfig = true) :
    (∃ trace, RunOperator lib util ctx controllerConfig = .recvThenReturn trace ctx.Done none) ∧
    (RunOperator lib util ctx controllerConfig).goroutines =
      [ .RunStaticResourceController RunOperator.serviceMonitorController ctx 1,
        .Start .kubeInformersForNamespaces ctx.Done,
        .Start .dynamicInformers ctx.Done,
        .Start .configInformers ctx.Done,
        .Start .operatorInformers ctx.Done,
        .RunSecretSyncController ⟨util.Resync⟩ ctx 1,
        .RunCSIControllerSet
          (RunOperator.csiControllerSet util
            ⟨(lib.apiextclientNewForConfig
              (lib.AddUserAgent controllerConfig.KubeConfig util.OperatorName)).1, none⟩)
          ctx 1 ] ∧
    (∀ t, (¬ ∃ c, ctx.cancelledAt = some c ∧ c ≤ t) →
      (RunOperator lib util ctx controllerConfig).statusAt t = .blocked) ∧
    (∀ t, (∃ c, ctx.cancelledAt = some c ∧ c ≤ t) →
      (RunOperator lib util ctx controllerConfig).statusAt t = .returned none) := by
  have hx : RunOperator lib util ctx controllerConfig =
      Exec.after
        [ .constructed .kubeClient none, .constructed .apiExtClient none,
          .constructed .configClient none, .constructed .operatorClientSet none,
          .constructed .operatorClient none, .constructed .dynamicClient none ]
        (.recvThenReturn
          [ .klogInfo "Starting ServiceMonitor controller",
            .go (.RunStaticResourceController RunOperator.serviceMonitorController ctx 1),
            .klogInfo "Starting the informers",
            .go (.Start .kubeInformersForNamespaces ctx.Done),
            .go (.Start .dynamicInformers ctx.Done),
            .go (.Start .configInformers ctx.Done),
            .go (.Start .operatorInformers ctx.Done),
            .klogInfo "Starting controllerset",
            .go (.RunSecretSyncController ⟨util.Resync⟩ ctx 1),
            .go (.RunCSIControllerSet
              (RunOperator.csiControllerSet util
                ⟨(lib.apiextclientNewForConfig
                  (lib.AddUserAgent controllerConfig.KubeConfig util.OperatorName)).1, none⟩)
              ctx 1) ]
          ctx.Done none) := by
    simp only [RunOperator, clients_of_constructionsSucceed lib util controllerConfig h]
    rw [start_of_err_nil util ctx _ _ rfl]
  rw [hx]
  refine ⟨⟨_, rfl⟩, rfl, ?_, ?_⟩
  · intro t ht
    rw [← Done_closed_iff] at ht
    simp [Exec.statusAt, Exec.after, ht]
  · intro t ht
    rw [← Done_closed_iff] at ht
    simp [Exec.statusAt, Exec.after, ht]

/-- At a concrete input: on configuration 4 every construction succeeds; with a
context cancelled at instant 5, RunOperator is blocked at instant 4 and has
returned nil at instant 5. -/
theorem RunOperator_returns_on_cancellation_only_witness :
    constructionsSucceed exampleVendored exampleUtil ⟨4⟩ = true ∧
    (RunOperator exampleVendored exampleUtil ⟨some 5⟩ ⟨4⟩).statusAt 4 = .blocked ∧
    (RunOperator exampleVendored exampleUtil ⟨some 5⟩ ⟨4⟩).statusAt 5 = .returned none :=
  ⟨rfl,
   (RunOperator_returns_on_cancellation_only exampleVendored exampleUtil ⟨some 5⟩ ⟨4⟩
      rfl).2.2.1 4 (by simp),
   (RunOperator_returns_on_cancellation_only exampleVendored exampleUtil ⟨some 5⟩ ⟨4⟩
      rfl).2.2.2 5 ⟨5, rfl, le_refl 5⟩⟩

/-- C10. Whenever RunOperator reaches the composition, `err` is nil there; the
composition does not assign it, so whatever controller set the builder calls
produce, the check that follows falls through: RunOperator starts its
goroutines, waits for the context and returns nil. -/
theorem trailing_err_check_never_fires (lib : Vendored K σ CRD) (util : Util)
    (controllerConfig : ControllerContext K) (trace : List (Event σ)) (l : Locals σ CRD)
    (h : RunOperator.clients lib util controllerConfig = .reached trace l) :
    l.err = none ∧
    ∀ (ctx : Context) (set : CSIControllerSet σ),
      (∃ started, RunOperator.start util ctx l set = .recvThenReturn started ctx.Done none) ∧
      ∀ t e, (RunOperator.start util ctx l set).statusAt t ≠ .returned (some e) := by
  have herr := (clients_reached lib util controllerConfig trace l h).1
  refine ⟨herr, fun ctx set => ?_⟩
  rw [start_of_err_nil util ctx l set herr]
  refine ⟨⟨_, rfl⟩, ?_⟩
  intro t e
  simp only [Exec.statusAt]
  split <;> simp

/-- At a concrete input: on configuration 4 the composition is reached, and
`err` is nil there. -/
theorem trailing_err_check_never_fires_witness :
    RunOperator.clients exampleVendored exampleUtil ⟨4⟩ =
      .reached
        [ .constructed .kubeClient none, .constructed .apiExtClient none,
          .constructed .configClient none, .constructed .operatorClientSet none,
          .constructed .operatorClient none, .constructed .dynamicClient none ]
        ⟨exampleApiExtClient, none⟩ ∧
    (⟨exampleApiExtClient, none⟩ : Locals Bool Unit).err = none ∧
    ∀ (ctx : Context) (set : CSIControllerSet Bool),
      (∃ started, RunOperator.start exampleUtil ctx ⟨exampleApiExtClient, none⟩ set =
        .recvThenReturn started ctx.Done none) ∧
      ∀ t e, (RunOperator.start exampleUtil ctx ⟨exampleApiExtClient, none⟩ set).statusAt t ≠
        .returned (some e) :=
  ⟨rfl, trailing_err_check_never_fires exampleVendored exampleUtil ⟨4⟩ _ _ rfl⟩

end RunProps

/-! ## Field ownership isolation -/

section Ownership

/-- Dropping the claims of another manager does not change the claim found for
a manager. -/
theorem lookup_filter_ne (A B : String) (hAB : A ≠ B) (claims : List (String × List Field)) :
    (claims.filter (fun c => decide (c.1 ≠ B))).lookup A = claims.lookup A := by
  simp only [ne_eq, decide_not]
  induction claims with
  | nil => rfl
  | cons c rest ih =>
    obtain ⟨m, fs⟩ := c
    by_cases hm : m = B
    · subst hm
      have hne : (A == m) = false := by simpa using hAB
      simp [List.filter_cons, List.lookup_cons, hne, ih]
    · by_cases hA : A = m
      · subst hA
        simp [List.filter_cons, List.lookup_cons, hm]
      · have hne : (A == m) = false := by simpa using hA
        simp [List.filter_cons, List.lookup_cons, hm, hne, ih]

/-- After an apply, the manager owns exactly the fields of its patch. -/
theorem owned_apply_self (i : Instance) (patch : FieldValues) (A : String) :
    (i.apply patch A).owned A = some (fieldsOf patch) := by
  simp [Instance.owned, Instance.apply, List.lookup_cons]

/-- An apply by one manager leaves the claim of every other manager as it was. -/
theorem owned_apply_other (i : Instance) (patch : FieldValues) (A B : String) (hAB : A ≠ B) :
    (i.apply patch B).owned A = i.owned A := by
  have hne : (A == B) = false := by simpa using hAB
  simp only [Instance.owned, Instance.apply, List.lookup_cons, hne]
  exact lookup_filter_ne A B hAB i.claims

/-- After an apply, the values of the fields of the patch are those of the
patch. -/
theorem values_apply_self (i : Instance) (patch : FieldValues) (A : String) :
    (i.apply patch A).values.filter (fun p => decide (p.1 ∈ fieldsOf patch)) = patch := by
  simp only [Instance.apply, List.filter_append, List.filter_filter]
  have h1 : patch.filter (fun p => decide (p.1 ∈ fieldsOf patch)) = patch := by
    rw [List.filter_eq_self]
    intro p hp
    simp only [decide_eq_true_eq, fieldsOf]
    exact List.mem_map_of_mem Prod.fst hp
  have h2 : i.values.filter (fun p => decide (p.1 ∈ fieldsOf patch) &&
      decide (p.1 ∉ fieldsOf patch)) = [] := by
    rw [List.filter_eq_nil_iff]
    intro p _
    simp
  rw [h1, h2, List.append_nil]

/-- An apply of a patch leaves the values of the fields outside the patch as
they were. -/
theorem values_apply_disjoint (i : Instance) (patch : FieldValues) (B : String)
    (fs : List Field) (hdisj : ∀ f ∈ fs, f ∉ fieldsOf patch) :
    (i.apply patch B).values.filter (fun p => decide (p.1 ∈ fs)) =
      i.values.filter (fun p => decide (p.1 ∈ fs)) := by
  simp only [Instance.apply, List.filter_append, List.filter_filter]
  have h1 : patch.filter (fun p => decide (p.1 ∈ fs)) = [] := by
    rw [List.filter_eq_nil_iff]
    intro p hp hmem
    simp only [decide_eq_true_eq] at hmem
    exact hdisj p.1 hmem (List.mem_map_of_mem Prod.fst hp)
  rw [h1, List.nil_append]
  apply List.filter_congr
  intro p _
  by_cases hp : p.1 ∈ fs
  · simp [hp, hdisj p.1 hp]
  · simp [hp]

/-- What the specified extraction returns for a manager right after its apply:
the configuration holding the values of its patch. -/
theorem extractOwned_apply_self (i : Instance) (patch : FieldValues) (A : String) :
    extractOwned (i.apply patch A) A = .ok (toApplyConfiguration patch) := by
  simp only [extractOwned, owned_apply_self, values_apply_self]

/-- The specified extraction for a manager is unchanged by an apply of another
manager on fields that the first one does not own. -/
theorem extractOwned_apply_other (i : Instance) (patch : FieldValues) (A B : String)
    (hAB : A ≠ B) (hdisj : ∀ fs, i.owned A = some fs → ∀ f ∈ fs, f ∉ fieldsOf patch) :
    extractOwned (i.apply patch B) A = extractOwned i A := by
  simp only [extractOwned, owned_apply_other i patch A B hAB]
  cases h : i.owned A with
  | none => rfl
  | some fs => simp only [values_apply_disjoint i patch B fs (hdisj fs h)]

/-- The Spec part of a configuration holding some field values. -/
theorem toApplyConfiguration_spec (vs : FieldValues) :
    (toApplyConfiguration vs).Spec.map (fun spec => spec.OperatorSpecApplyConfiguration) =
      lastWritten .spec vs := by
  simp only [toApplyConfiguration, lastWritten]
  split <;> rfl

/-- The Status part of a configuration holding some field values. -/
theorem toApplyConfiguration_status (vs : FieldValues) :
    (toApplyConfiguration vs).Status.map
      (fun status => status.OperatorStatusApplyConfiguration) = lastWritten .status vs := by
  simp only [toApplyConfiguration, lastWritten]
  split <;> rfl

/-- C4. Field ownership isolation, for the extraction specified in section 4.2.
Let manager A apply a patch, and let a distinct manager B then apply a patch on
disjoint fields. Whatever the conversion from the generic object is, for the
object read before the apply of B and the object read after it,
extractOperatorSpec and extractOperatorStatus return the same result for A, and
that result is the value last written by A, with a nil error. -/
theorem field_ownership_isolation {M : Type}
    (fromUnstructured : M → Except GoError Instance) (quote : String → String)
    (obj objB : Unstructured M) (i : Instance) (patchA patchB : FieldValues) (A B : String)
    (hAB : A ≠ B)
    (hdisj : ∀ f ∈ fieldsOf patchA, f ∉ fieldsOf patchB)
    (hobj : fromUnstructured obj.Object = .ok (i.apply patchA A))
    (hobjB : fromUnstructured objB.Object = .ok ((i.apply patchA A).apply patchB B)) :
    extractOperatorSpec (ownershipConverter fromUnstructured quote) objB A =
      extractOperatorSpec (ownershipConverter fromUnstructured quote) obj A ∧
    extractOperatorStatus (ownershipConverter fromUnstructured quote) objB A =
      extractOperatorStatus (ownershipConverter fromUnstructured quote) obj A ∧
    extractOperatorSpec (ownershipConverter fromUnstructured quote) objB A =
      ⟨lastWritten .spec patchA, none⟩ ∧
    extractOperatorStatus (ownershipConverter fromUnstructured quote) objB A =
      ⟨lastWritten .status patchA, none⟩ := by
  have hA : extractOwned (i.apply patchA A) A = .ok (toApplyConfiguration patchA) :=
    extractOwned_apply_self i patchA A
  have hB : extractOwned ((i.apply patchA A).apply patchB B) A =
      .ok (toApplyConfiguration patchA) := by
    rw [extractOwned_apply_other (i.apply patchA A) patchB A B hAB, hA]
    intro fs hfs f hf
    rw [owned_apply_self] at hfs
    cases hfs
    exact hdisj f hf
  have s1 := extractOperatorSpec_success (ownershipConverter fromUnstructured quote)
    obj A _ _ hobj hA
  have s2 := extractOperatorSpec_success (ownershipConverter fromUnstructured quote)
    objB A _ _ hobjB hB
  have t1 := extractOperatorStatus_success (ownershipConverter fromUnstructured quote)
    obj A _ _ hobj hA
  have t2 := extractOperatorStatus_success (ownershipConverter fromUnstructured quote)
    objB A _ _ hobjB hB
  rw [toApplyConfiguration_spec] at s1 s2
  rw [toApplyConfiguration_status] at t1 t2
  rw [s1, s2, t1, t2]
  exact ⟨rfl, rfl, rfl, rfl⟩

/-- At a concrete input: the manager "operator" applies two spec fields, the
manager "storage" then applies two other fields; for "operator" the extracted
spec is its own two fields and the extracted status is nil, before and after. -/
theorem field_ownership_isolation_witness :
    "operator" ≠ "storage" ∧
    (∀ f ∈ fieldsOf examplePatchA, f ∉ fieldsOf examplePatchB) ∧
    extractOperatorSpec (ownershipConverter (fun i => .ok i) (fun s => s))
        ⟨(exampleInstance.apply examplePatchA "operator").apply examplePatchB "storage"⟩
        "operator" =
      extractOperatorSpec (ownershipConverter (fun i => .ok i) (fun s => s))
        ⟨exampleInstance.apply examplePatchA "operator"⟩ "operator" ∧
    extractOperatorStatus (ownershipConverter (fun i => .ok i) (fun s => s))
        ⟨(exampleInstance.apply examplePatchA "operator").apply examplePatchB "storage"⟩
        "operator" =
      extractOperatorStatus (ownershipConverter (fun i => .ok i) (fun s => s))
        ⟨exampleInstance.apply examplePatchA "operator"⟩ "operator" ∧
    extractOperatorSpec (ownershipConverter (fun i => .ok i) (fun s => s))
        ⟨(exampleInstance.apply examplePatchA "operator").apply examplePatchB "storage"⟩
        "operator" =
      ⟨lastWritten .spec examplePatchA, none⟩ ∧
    extractOperatorStatus (ownershipConverter (fun i => .ok i) (fun s => s))
        ⟨(exampleInstance.apply examplePatchA "operator").apply examplePatchB "storage"⟩
        "operator" =
      ⟨lastWritten .status examplePatchA, none⟩ :=
  ⟨by decide, by decide,
    field_ownership_isolation (fun i => .ok i) (fun s => s)
      ⟨exampleInstance.apply examplePatchA "operator"⟩
      ⟨(exampleInstance.apply examplePatchA "operator").apply examplePatchB "storage"⟩
      exampleInstance examplePatchA examplePatchB "operator" "storage"
      (by decide) (by decide) rfl rfl⟩

end Ownership

end operator
